import Mathlib

/-!
Verification of the authentication flow of the zamanix blog application.

Server side: a shallow embedding of `src/server/controllers/userController.js`
(the `registerUser` and `loginUser` handlers) and of the database bootstrap in
`src/server/index.js`. Client side: a shallow embedding of the auth state
machine in `src/src/components/LoginForm.tsx`.

Effectful calls to the collaborators (credential store, passphrase generator,
token issuer, passphrase verifier) are recorded in an explicit trace of
`Effect`s, so that statements such as "without any lookup in the credential
store" or "passphrase verification is skipped" are expressible.
-/

namespace Zamanix

/-- A stored user record.  The Mongoose model file (`models/User.js`) is not
part of the sources, so the record is modelled from the spec: it carries the
persisted attributes (id, name, email, phone) and two verification
capabilities, `matchPassword` (salted-hash comparison against the stored
password hash) and `verifyPassphrase` (comparison against the stored
passphrase material), both treated as opaque boolean-valued functions. -/
structure User where
  _id : String
  name : String
  email : String
  phone : String
  matchPassword : String → Bool
  verifyPassphrase : String → Bool

/-- The credential store: the collection of persisted user records. -/
abbrev Store := List User

/-- Collaborator calls made by a handler, recorded in order. -/
inductive Effect where
  /-- `User.findOne({ email })` — a lookup in the credential store. -/
  | storeLookup (email : String)
  /-- `User.create(...)` — persisting a new user record. -/
  | storeCreate (email : String)
  /-- `generatePassphrase()` — invoking the passphrase generator. -/
  | genPassphrase
  /-- `user.matchPassword(password)` — password verification. -/
  | checkPassword (password : String)
  /-- `user.verifyPassphrase(passphrase)` — passphrase verification. -/
  | checkPassphrase (passphrase : String)
  /-- `generateToken(id)` — invoking the token issuer. -/
  | issueToken (id : String)
deriving DecidableEq, Repr

/-- The body of a login request: `const { email, password, passphrase } =
req.body`.  The passphrase field may be absent (`none`). -/
structure LoginReq where
  email : String
  password : String
  passphrase : Option String
deriving DecidableEq, Repr

/-- The `data` object of a successful login response.  The `phone` key is
optional because the administrative-sentinel response literal
(userController.js lines 63-71) does not contain it. -/
structure LoginData where
  _id : String
  name : String
  email : String
  phone : Option String
  token : String
deriving DecidableEq, Repr

/-- An HTTP response of the login endpoint: HTTP status code, the `status`
body field, the optional `message` body field and the optional `data` body
field. -/
structure LoginResponse where
  httpStatus : Nat
  status : String
  message : Option String
  data : Option LoginData
deriving DecidableEq, Repr

/-- JavaScript truthiness of the optional passphrase value: `undefined` and
the empty string are both falsy. -/
def truthy : Option String → Bool
  | none => false
  | some s => !(s == "")

/-- `User.findOne({ email })`: the first stored record with the given email. -/
def findOne (store : Store) (email : String) : Option User :=
  store.find? (fun u => u.email == email)

/-- The 401 response shared by the unknown-email and wrong-password branches. -/
def invalidCredentialsResponse : LoginResponse :=
  { httpStatus := 401, status := "error",
    message := some "Invalid email or password", data := none }

/-- The 401 response of the failed-passphrase branch. -/
def invalidPassphraseResponse : LoginResponse :=
  { httpStatus := 401, status := "error",
    message := some "Invalid passphrase", data := none }

/-- The response literal of the administrative sentinel branch
(userController.js lines 63-71).  Note the absence of a `phone` key. -/
def adminLoginResponse : LoginResponse :=
  { httpStatus := 200, status := "success", message := none,
    data := some { _id := "admin", name := "Admin",
                   email := "admin@zamanix.com", phone := none,
                   token := "admin_token" } }

/-- Shallow embedding of the `loginUser` handler (userController.js lines
57-117).  `tok` is the token issuer (`generateToken`), passed in because
`utils/generateToken.js` is not part of the sources.  Returns the response
together with the trace of collaborator calls. -/
def loginUser (tok : String → String) (store : Store) (req : LoginReq) :
    LoginResponse × List Effect :=
  if req.email == "admin@zamanix.com" && req.password == "zamanix_admin" then
    (adminLoginResponse, [])
  else
    match findOne store req.email with
    | none => (invalidCredentialsResponse, [.storeLookup req.email])
    | some user =>
      let effs := [Effect.storeLookup req.email, .checkPassword req.password]
      if !user.matchPassword req.password then
        (invalidCredentialsResponse, effs)
      else
        let p := req.passphrase.getD ""
        let effs := effs ++
          (if truthy req.passphrase then [Effect.checkPassphrase p] else [])
        if truthy req.passphrase && !user.verifyPassphrase p then
          (invalidPassphraseResponse, effs)
        else
          ({ httpStatus := 200, status := "success", message := none,
             data := some { _id := user._id, name := user.name,
                            email := user.email, phone := some user.phone,
                            token := tok user._id } },
           effs ++ [.issueToken user._id])

/-- The body of a registration request. -/
structure RegisterReq where
  name : String
  email : String
  phone : String
  password : String
deriving DecidableEq, Repr

/-- The `data` object of a successful registration response. -/
structure RegisterData where
  _id : String
  name : String
  email : String
  phone : String
  passphrase : String
  token : String
deriving DecidableEq, Repr

/-- An HTTP response of the registration endpoint. -/
structure RegisterResponse where
  httpStatus : Nat
  status : String
  message : String
  data : Option RegisterData
deriving DecidableEq, Repr

/-- The new record persisted by `User.create`.  Modelled from the spec: the
model file is not in the sources; the stored password supports salted-hash
comparison and the stored passphrase material supports verification, so the
capabilities are equality tests against the submitted password and the
generated passphrase. -/
def mkUser (req : RegisterReq) (pass : String) (newId : String) : User :=
  { _id := newId, name := req.name, email := req.email, phone := req.phone,
    matchPassword := fun p => p == req.password,
    verifyPassphrase := fun s => s == pass }

/-- Shallow embedding of the `registerUser` handler (userController.js lines
9-52).  `tok` is the token issuer; `gen` is the value the passphrase
generator would produce (`utils/generatePassphrase.js` is not in the
sources); `newId` is the store-assigned id of the new record.  The store's
uniqueness constraint is modelled from the spec: a duplicate email makes
`User.create` throw, which the handler's catch turns into a 400.  Returns
the response, the updated store and the trace. -/
def registerUser (tok : String → String) (gen newId : String)
    (store : Store) (req : RegisterReq) :
    RegisterResponse × Store × List Effect :=
  if req.email == "admin@zamanix.com" then
    ({ httpStatus := 400, status := "error",
       message := "This email cannot be used for registration", data := none },
     store, [])
  else
    if store.any (fun u => u.email == req.email) then
      ({ httpStatus := 400, status := "error",
         message := "DuplicateIdentity", data := none },
       store, [.genPassphrase, .storeCreate req.email])
    else
      ({ httpStatus := 201, status := "success",
         message := "Account created successfully",
         data := some { _id := newId, name := req.name, email := req.email,
                        phone := req.phone, passphrase := gen,
                        token := tok newId } },
       store ++ [mkUser req gen newId],
       [.genPassphrase, .storeCreate req.email, .issueToken newId])

/-! Database connection bootstrap, from `src/server/index.js`.  The outcome of
each `mongoose.connect` attempt is abstracted as an oracle indexed by the
attempt number; the delays awaited between attempts are returned as a list of
rationals (milliseconds — `delay * 1.5` leaves the integers). -/

/-- Shallow embedding of `connectDB(retries, delay)` (index.js lines 22-45)
at attempt index `k`: try to connect; on failure, if retries remain, wait
`delay` ms and recurse with `retries - 1` and `delay * 1.5`.  Returns whether
a connection was established and the list of delays awaited. -/
def connectDBFrom (oracle : Nat → Bool) (k : Nat) :
    Nat → ℚ → Bool × List ℚ
  | retries, delay =>
    if oracle k then (true, [])
    else
      match retries with
      | 0 => (false, [])
      | r + 1 =>
        let rest := connectDBFrom oracle (k + 1) r (delay * (3 / 2))
        (rest.1, delay :: rest.2)

/-- `connectDB()` as called by `initializeApp` (index.js line 89): five
retries, initial delay 5000 ms. -/
def connectDB (oracle : Nat → Bool) : Bool × List ℚ :=
  connectDBFrom oracle 0 5 5000

/-- Outcome of `initializeApp` (index.js lines 86-158): either the API routes
are registered and the server listens, or the process exits with code 1. -/
inductive InitOutcome where
  /-- Routes mounted in order, then `app.listen` accepts traffic. -/
  | serving (routes : List String)
  /-- `process.exit(code)` without serving. -/
  | exited (code : Nat)
deriving DecidableEq, Repr

/-- Shallow embedding of `initializeApp` (index.js lines 86-158): routes are
mounted and the server starts listening only after `connectDB` reports
success; otherwise the thrown error reaches the catch block and the process
exits with code 1. -/
def initApp (oracle : Nat → Bool) : InitOutcome :=
  if (connectDB oracle).1 then
    .serving ["/api/blogs", "/api/users"]
  else
    .exited 1

/-! Client auth flow, from `src/src/components/LoginForm.tsx`: the component
state, the events a user or the network can trigger, and the step function.
Calls to the `useUser` context (`signup`, `login`) are recorded as `ApiCall`s;
their boolean results are inputs of the corresponding events. -/

/-- The `formData` state of the component. -/
structure FormData where
  name : String
  email : String
  password : String
  phone : String
  passphrase : String
deriving DecidableEq, Repr

/-- The all-empty form, used by `useState` and by the signup/login toggle. -/
def emptyForm : FormData :=
  { name := "", email := "", password := "", phone := "", passphrase := "" }

/-- The component state of `LoginForm` (the transient `loading` flag, true
only while a handler is in flight, is omitted). -/
structure ClientState where
  isSignup : Bool
  showPassphrasePopup : Bool
  formData : FormData
  generatedPassphrase : String
  error : String
  success : String
  tempLoginData : Option (String × String)
deriving DecidableEq, Repr

/-- The initial component state. -/
def initClient : ClientState :=
  { isSignup := false, showPassphrasePopup := false, formData := emptyForm,
    generatedPassphrase := "", error := "", success := "",
    tempLoginData := none }

/-- The form fields. -/
inductive Field where
  | name | email | password | phone | passphrase
deriving DecidableEq, Repr

/-- Update one field of the form (`handleInputChange`). -/
def setField (fd : FormData) : Field → String → FormData
  | .name, v => { fd with name := v }
  | .email, v => { fd with email := v }
  | .password, v => { fd with password := v }
  | .phone, v => { fd with phone := v }
  | .passphrase, v => { fd with passphrase := v }

/-- Whether an input for the field is rendered in the given state: the
passphrase input exists only in the passphrase popup; name and phone inputs
only on the signup form; email and password inputs on the main form. -/
def rendered (s : ClientState) : Field → Bool
  | .passphrase => s.showPassphrasePopup
  | .name => !s.showPassphrasePopup && s.isSignup
  | .phone => !s.showPassphrasePopup && s.isSignup
  | .email => !s.showPassphrasePopup
  | .password => !s.showPassphrasePopup

/-- A call to the `useUser` context made by a handler. -/
inductive ApiCall where
  /-- `signup({name, email, password, phone})`. -/
  | signup (name email password phone : String)
  /-- `login(email, password, passphrase?)`. -/
  | login (email password : String) (passphrase : Option String)
deriving DecidableEq, Repr

/-- An event the component can process: typing into a rendered input,
toggling signup/login, dismissing the passphrase popup, submitting the main
form, or submitting the popup form.  `apiOk` is the boolean result of the
`signup`/`login` call the handler awaits. -/
inductive Event where
  | input (f : Field) (v : String)
  | toggle
  | dismissPopup
  | submit (apiOk : Bool)
  | passphraseSubmit (apiOk : Bool)
deriving DecidableEq, Repr

/-- One step of the client state machine.  `none` means the event is not
available in the state (its control is not rendered there).  Otherwise the
new state is returned with the API calls the handler made. -/
def clientStep (s : ClientState) : Event → Option (ClientState × List ApiCall)
  | .input f v =>
    if rendered s f then
      some ({ s with formData := setField s.formData f v,
                     error := "", success := "" }, [])
    else none
  | .toggle =>
    if s.showPassphrasePopup then none
    else
      some ({ s with isSignup := !s.isSignup, error := "", success := "",
                     generatedPassphrase := "", formData := emptyForm }, [])
  | .dismissPopup =>
    if s.showPassphrasePopup then
      some ({ s with showPassphrasePopup := false, tempLoginData := none,
                     formData := { s.formData with passphrase := "" } }, [])
    else none
  | .submit apiOk =>
    if s.showPassphrasePopup then none
    else
      let s0 := { s with error := "", success := "" }
      if s.isSignup then
        if s.formData.name = "" ∨ s.formData.email = "" ∨
            s.formData.password = "" ∨ s.formData.phone = "" then
          some ({ s0 with error := "All fields are required" }, [])
        else
          let call := ApiCall.signup s.formData.name s.formData.email
            s.formData.password s.formData.phone
          if apiOk then
            some ({ s0 with
              success := "Account created successfully! Please save your passphrase:",
              generatedPassphrase := s.formData.passphrase }, [call])
          else
            some ({ s0 with error := "Failed to create account" }, [call])
      else
        if s.formData.email = "" ∨ s.formData.password = "" then
          some ({ s0 with error := "Email and password are required" }, [])
        else
          if s.formData.email = "admin@zamanix.com" then
            let call := ApiCall.login s.formData.email s.formData.password none
            if apiOk then
              some ({ s0 with success := "Login successful!" }, [call])
            else
              some ({ s0 with error := "Invalid credentials" }, [call])
          else
            let temp := some (s.formData.email, s.formData.password)
            some ({ s0 with tempLoginData := temp,
                            showPassphrasePopup := true }, [])
  | .passphraseSubmit apiOk =>
    if s.showPassphrasePopup then
      match s.tempLoginData with
      | none => some (s, [])
      | some (e, pw) =>
        let s0 := { s with error := "" }
        let call := ApiCall.login e pw (some s.formData.passphrase)
        if apiOk then
          some ({ s0 with success := "Login successful!" }, [call])
        else
          some ({ s0 with error := "Invalid passphrase" }, [call])
    else none

/-- The states reachable from the initial component state. -/
inductive Reachable : ClientState → Prop where
  | init : Reachable initClient
  | next {s : ClientState} {e : Event} {s' : ClientState} {cs : List ApiCall} :
      Reachable s → clientStep s e = some (s', cs) → Reachable s'

/-! Concrete records used to instantiate the theorems below. -/

/-- A registered non-admin user, as `User.create` would persist it for the
request `{name: "Alice", email: "alice@x.com", phone: "123", password: "pw"}`
with generated passphrase `"w1 w2"`. -/
def alice : User :=
  mkUser { name := "Alice", email := "alice@x.com", phone := "123",
           password := "pw" } "w1 w2" "u1"

/-- The client state after toggling the initial login form to signup mode. -/
def sSignup0 : ClientState := { initClient with isSignup := true }

/-- After typing the name. -/
def sSignup1 : ClientState :=
  { sSignup0 with formData := { emptyForm with name := "Al" } }

/-- After typing the phone number. -/
def sSignup2 : ClientState :=
  { sSignup1 with formData := { sSignup1.formData with phone := "1" } }

/-- After typing the email. -/
def sSignup3 : ClientState :=
  { sSignup2 with formData := { sSignup2.formData with email := "al@x.com" } }

/-- After typing the password: a filled-in signup form. -/
def sSignup4 : ClientState :=
  { sSignup3 with formData := { sSignup3.formData with password := "pw" } }

/-- The state after the successful signup submission. -/
def sSignup5 : ClientState :=
  { sSignup4 with
    success := "Account created successfully! Please save your passphrase:",
    generatedPassphrase := "" }

/-- The state a non-admin login submission leads to: the passphrase popup is
open and the submitted credentials are stashed in `tempLoginData`. -/
def popupState (s : ClientState) : ClientState :=
  { s with
      error := "", success := "",
      tempLoginData := some (s.formData.email, s.formData.password),
      showPassphrasePopup := true }

/-- A filled-in login form for a non-admin email. -/
def sLogin : ClientState :=
  { initClient with
    formData := { emptyForm with email := "al@x.com", password := "pw" } }

/-! ## Claims about the server handlers -/

/-- C2: registering with the reserved email `admin@zamanix.com` always fails
with HTTP 400 and status `"error"`, whatever the other fields are, and
neither generates a passphrase nor creates a user record (the store is
unchanged and the trace is empty). -/
theorem registerUser_reserved_admin_email (tok : String → String)
    (gen newId : String) (store : Store) (req : RegisterReq)
    (h : req.email = "admin@zamanix.com") :
    registerUser tok gen newId store req =
      ({ httpStatus := 400, status := "error",
         message := "This email cannot be used for registration",
         data := none }, store, []) := by
  simp [registerUser, h]

/-- Witness for C2: a concrete registration request with the reserved email. -/
theorem registerUser_reserved_admin_email_witness :
    registerUser (fun i => i) "w1 w2" "u9" [alice]
        { name := "Mallory", email := "admin@zamanix.com", phone := "7",
          password := "zamanix_admin" } =
      ({ httpStatus := 400, status := "error",
         message := "This email cannot be used for registration",
         data := none }, [alice], []) :=
  registerUser_reserved_admin_email (fun i => i) "w1 w2" "u9" [alice] _ rfl

/-- C1: the administrative sentinel.  With email `admin@zamanix.com` and
password `zamanix_admin`, `loginUser` returns the fixed success response —
identity `_id = "admin"`, token `"admin_token"` — with an empty trace, hence
without any lookup in the credential store; with the same email and any other
password it falls through to the normal store lookup and, the reserved email
never being registered, is rejected with the 401 invalid-credentials
response. -/
theorem loginUser_admin_sentinel (tok : String → String) (store : Store)
    (pp pp2 : Option String) (pw : String)
    (hpw : pw ≠ "zamanix_admin")
    (hstore : ∀ u ∈ store, u.email ≠ "admin@zamanix.com") :
    (loginUser tok store ⟨"admin@zamanix.com", "zamanix_admin", pp⟩ =
        (adminLoginResponse, []) ∧
      adminLoginResponse.data = some
        { _id := "admin", name := "Admin", email := "admin@zamanix.com",
          phone := none, token := "admin_token" } ∧
      adminLoginResponse.httpStatus = 200) ∧
    loginUser tok store ⟨"admin@zamanix.com", pw, pp2⟩ =
      (invalidCredentialsResponse, [.storeLookup "admin@zamanix.com"]) := by
  have hfind : findOne store "admin@zamanix.com" = none := by
    rw [findOne, List.find?_eq_none]
    intro u hu
    simpa using hstore u hu
  refine ⟨⟨by simp [loginUser], rfl, rfl⟩, ?_⟩
  simp [loginUser, hpw, hfind]

/-- Witness for C1: the sentinel pair against a store holding only a normal
user, and the wrong password `"guess"` for the same email. -/
theorem loginUser_admin_sentinel_witness :
    loginUser (fun i => i) [alice]
        ⟨"admin@zamanix.com", "zamanix_admin", none⟩ =
      (adminLoginResponse, []) ∧
    loginUser (fun i => i) [alice] ⟨"admin@zamanix.com", "guess", none⟩ =
      (invalidCredentialsResponse, [.storeLookup "admin@zamanix.com"]) := by
  have h := loginUser_admin_sentinel (fun i => i) [alice] none none "guess"
    (by decide) (by decide)
  exact ⟨h.1.1, h.2⟩

/-- C3: for a registered user, a login with the correct password and no
passphrase field succeeds — HTTP 200, status `"success"`, a data object with
a token — and the trace contains no passphrase verification at all. -/
theorem loginUser_omitted_passphrase_succeeds (tok : String → String)
    (store : Store) (req : LoginReq) (user : User)
    (hfind : findOne store req.email = some user)
    (hpw : user.matchPassword req.password = true)
    (hpp : req.passphrase = none) :
    (loginUser tok store req).1.httpStatus = 200 ∧
    (loginUser tok store req).1.status = "success" ∧
    (∃ d, (loginUser tok store req).1.data = some d) ∧
    ∀ p, Effect.checkPassphrase p ∉ (loginUser tok store req).2 := by
  by_cases hs :
      (req.email == "admin@zamanix.com" && req.password == "zamanix_admin")
        = true
  · simp [loginUser, hs, adminLoginResponse]
  · simp [loginUser, hs, hfind, hpw, hpp, truthy]

/-- Witness for C3: Alice logs in with her password and no passphrase. -/
theorem loginUser_omitted_passphrase_succeeds_witness :
    (loginUser (fun i => i) [alice] ⟨"alice@x.com", "pw", none⟩).1.httpStatus
        = 200 ∧
    (loginUser (fun i => i) [alice] ⟨"alice@x.com", "pw", none⟩).1.status
        = "success" ∧
    (∃ d, (loginUser (fun i => i) [alice]
        ⟨"alice@x.com", "pw", none⟩).1.data = some d) ∧
    ∀ p, Effect.checkPassphrase p ∉
      (loginUser (fun i => i) [alice] ⟨"alice@x.com", "pw", none⟩).2 :=
  loginUser_omitted_passphrase_succeeds (fun i => i) [alice] _ alice rfl rfl
    rfl

/-- C4, counterexample to the claim as stated: the claim quantifies over
every supplied passphrase that fails stored-passphrase verification, but a
supplied passphrase equal to the empty string is falsy in JavaScript, so the
guard `passphrase && !user.verifyPassphrase(passphrase)` skips verification
and the login succeeds even though `""` would fail verification (Alice's
stored passphrase is `"w1 w2"`). -/
theorem loginUser_bad_passphrase_cex :
    alice.verifyPassphrase "" = false ∧
    alice.matchPassword "pw" = true ∧
    (loginUser (fun i => i) [alice] ⟨"alice@x.com", "pw", some ""⟩).1.status
        = "success" ∧
    (loginUser (fun i => i) [alice] ⟨"alice@x.com", "pw", some ""⟩).1
        ≠ invalidPassphraseResponse := by
  refine ⟨rfl, rfl, rfl, by decide⟩

/-- C4, amended: for a registered user, a login with the correct password and
a supplied non-empty passphrase that fails stored-passphrase verification
returns HTTP 401 with message `"Invalid passphrase"`, an error distinct from
the invalid-credentials one, even though the password was correct. -/
theorem loginUser_bad_passphrase_rejected (tok : String → String)
    (store : Store) (req : LoginReq) (user : User) (p : String)
    (hs : ¬(req.email = "admin@zamanix.com" ∧ req.password = "zamanix_admin"))
    (hfind : findOne store req.email = some user)
    (hpw : user.matchPassword req.password = true)
    (hpp : req.passphrase = some p) (hne : p ≠ "")
    (hver : user.verifyPassphrase p = false) :
    (loginUser tok store req).1 = invalidPassphraseResponse ∧
    invalidPassphraseResponse.httpStatus = 401 ∧
    invalidPassphraseResponse.message = some "Invalid passphrase" ∧
    invalidPassphraseResponse ≠ invalidCredentialsResponse := by
  have hb : ¬(req.email == "admin@zamanix.com"
      && req.password == "zamanix_admin") = true := by
    simp only [Bool.and_eq_true, beq_iff_eq]
    exact hs
  refine ⟨?_, rfl, rfl, by decide⟩
  simp [loginUser, hb, hfind, hpw, hpp, truthy, hne, hver]

/-- Witness for the amended C4: Alice, correct password, wrong non-empty
passphrase `"bad"`. -/
theorem loginUser_bad_passphrase_rejected_witness :
    (loginUser (fun i => i) [alice] ⟨"alice@x.com", "pw", some "bad"⟩).1
        = invalidPassphraseResponse ∧
    invalidPassphraseResponse.httpStatus = 401 ∧
    invalidPassphraseResponse.message = some "Invalid passphrase" ∧
    invalidPassphraseResponse ≠ invalidCredentialsResponse :=
  loginUser_bad_passphrase_rejected (fun i => i) [alice] _ alice "bad"
    (by decide) rfl rfl rfl (by decide) rfl

/-- C5: an unknown email and a stored email with a wrong password produce the
same error response object — same HTTP status 401, same `status` field, same
message — so the two failure causes are indistinguishable to the client. -/
theorem loginUser_indistinguishable_failures (tok : String → String)
    (store : Store) (r1 r2 : LoginReq) (user : User)
    (hs1 : ¬(r1.email = "admin@zamanix.com" ∧ r1.password = "zamanix_admin"))
    (hs2 : ¬(r2.email = "admin@zamanix.com" ∧ r2.password = "zamanix_admin"))
    (h1 : findOne store r1.email = none)
    (h2 : findOne store r2.email = some user)
    (hpw : user.matchPassword r2.password = false) :
    (loginUser tok store r1).1 = (loginUser tok store r2).1 ∧
    (loginUser tok store r1).1 = invalidCredentialsResponse ∧
    invalidCredentialsResponse.httpStatus = 401 ∧
    invalidCredentialsResponse.status = "error" ∧
    invalidCredentialsResponse.message = some "Invalid email or password" := by
  have hb1 : ¬(r1.email == "admin@zamanix.com"
      && r1.password == "zamanix_admin") = true := by
    simp only [Bool.and_eq_true, beq_iff_eq]
    exact hs1
  have hb2 : ¬(r2.email == "admin@zamanix.com"
      && r2.password == "zamanix_admin") = true := by
    simp only [Bool.and_eq_true, beq_iff_eq]
    exact hs2
  have e1 : (loginUser tok store r1).1 = invalidCredentialsResponse := by
    simp [loginUser, hb1, h1]
  have e2 : (loginUser tok store r2).1 = invalidCredentialsResponse := by
    simp [loginUser, hb2, h2, hpw]
  exact ⟨e1.trans e2.symm, e1, rfl, rfl, rfl⟩

/-- Witness for C5: the unknown email `nobody@x.com` versus Alice's email
with the wrong password `"nope"`. -/
theorem loginUser_indistinguishable_failures_witness :
    (loginUser (fun i => i) [alice] ⟨"nobody@x.com", "pw", none⟩).1 =
      (loginUser (fun i => i) [alice] ⟨"alice@x.com", "nope", none⟩).1 ∧
    (loginUser (fun i => i) [alice] ⟨"nobody@x.com", "pw", none⟩).1 =
      invalidCredentialsResponse ∧
    invalidCredentialsResponse.httpStatus = 401 ∧
    invalidCredentialsResponse.status = "error" ∧
    invalidCredentialsResponse.message = some "Invalid email or password" :=
  loginUser_indistinguishable_failures (fun i => i) [alice] _ _ alice
    (by decide) (by decide) rfl rfl rfl

/-- C6, counterexample to the claim as stated: the administrative sentinel
login succeeds with HTTP 200, yet its `data` object has no `phone` field —
the response literal of the admin branch omits the key. -/
theorem loginUser_success_shape_cex :
    (loginUser (fun i => i) []
        ⟨"admin@zamanix.com", "zamanix_admin", none⟩).1.httpStatus = 200 ∧
    (loginUser (fun i => i) []
        ⟨"admin@zamanix.com", "zamanix_admin", none⟩).1.status = "success" ∧
    (loginUser (fun i => i) []
        ⟨"admin@zamanix.com", "zamanix_admin", none⟩).1.data =
      some { _id := "admin", name := "Admin", email := "admin@zamanix.com",
             phone := none, token := "admin_token" } := by
  refine ⟨rfl, rfl, rfl⟩

/-- C6, amended: every successful login returns HTTP 200 with no `message`
field and a data object carrying `_id`, `name`, `email` and `token`; the
data object contains a `phone` field except in the administrative sentinel
response, which omits it — `phone` is absent exactly when the request is the
admin credential pair. -/
theorem loginUser_success_shape (tok : String → String) (store : Store)
    (req : LoginReq)
    (hsucc : (loginUser tok store req).1.status = "success") :
    (loginUser tok store req).1.httpStatus = 200 ∧
    (loginUser tok store req).1.message = none ∧
    ∃ d, (loginUser tok store req).1.data = some d ∧
      (d.phone = none ↔
        req.email = "admin@zamanix.com" ∧ req.password = "zamanix_admin") := by
  by_cases hs :
      (req.email == "admin@zamanix.com" && req.password == "zamanix_admin")
        = true
  · simp only [Bool.and_eq_true, beq_iff_eq] at hs
    have hb : (req.email == "admin@zamanix.com"
        && req.password == "zamanix_admin") = true := by
      simp only [Bool.and_eq_true, beq_iff_eq]
      exact hs
    refine ⟨by simp [loginUser, hb, adminLoginResponse],
      by simp [loginUser, hb, adminLoginResponse], ?_⟩
    refine ⟨{ _id := "admin", name := "Admin", email := "admin@zamanix.com",
              phone := none, token := "admin_token" },
      by simp [loginUser, hb, adminLoginResponse], ?_⟩
    simp [hs.1, hs.2]
  · have hs' : ¬(req.email = "admin@zamanix.com"
        ∧ req.password = "zamanix_admin") := by
      simpa [Bool.and_eq_true, beq_iff_eq] using hs
    cases hfind : findOne store req.email with
    | none => simp [loginUser, hs, hfind, invalidCredentialsResponse] at hsucc
    | some user =>
      by_cases hpw : user.matchPassword req.password = true
      · by_cases hvp : (truthy req.passphrase
            && !user.verifyPassphrase (req.passphrase.getD "")) = true
        · simp [loginUser, hs, hfind, hpw, hvp,
            invalidPassphraseResponse] at hsucc
        · refine ⟨by simp [loginUser, hs, hfind, hpw, hvp],
            by simp [loginUser, hs, hfind, hpw, hvp], ?_⟩
          refine ⟨{ _id := user._id, name := user.name, email := user.email,
                    phone := some user.phone, token := tok user._id },
            by simp [loginUser, hs, hfind, hpw, hvp], ?_⟩
          simp [hs']
      · simp [loginUser, hs, hfind, hpw, invalidCredentialsResponse] at hsucc

/-- Witness for the amended C6: Alice's successful login carries a phone
field, and her request is not the admin pair. -/
theorem loginUser_success_shape_witness :
    (loginUser (fun i => i) [alice] ⟨"alice@x.com", "pw", none⟩).1.httpStatus
        = 200 ∧
    (loginUser (fun i => i) [alice] ⟨"alice@x.com", "pw", none⟩).1.message
        = none ∧
    ∃ d, (loginUser (fun i => i) [alice]
        ⟨"alice@x.com", "pw", none⟩).1.data = some d ∧
      (d.phone = none ↔
        ("alice@x.com" : String) = "admin@zamanix.com"
          ∧ ("pw" : String) = "zamanix_admin") :=
  loginUser_success_shape (fun i => i) [alice] ⟨"alice@x.com", "pw", none⟩ rfl

/-- C8: a supplied empty-string passphrase is treated exactly like an omitted
one — `""` is falsy in JavaScript — so `loginUser` returns the same response
and trace as for the passphrase-free request; in particular, for a registered
user with correct password it succeeds and never invokes passphrase
verification. -/
theorem loginUser_empty_passphrase_like_omitted (tok : String → String)
    (store : Store) (req : LoginReq) (user : User)
    (hpp : req.passphrase = some "") :
    loginUser tok store req
        = loginUser tok store { req with passphrase := none } ∧
    (findOne store req.email = some user →
      user.matchPassword req.password = true →
      (loginUser tok store req).1.status = "success" ∧
      ∀ p, Effect.checkPassphrase p ∉ (loginUser tok store req).2) := by
  obtain ⟨e, pw, pp⟩ := req
  simp only at hpp
  subst hpp
  constructor
  · simp [loginUser, truthy]
  · intro hfind hpw
    by_cases hs : (e == "admin@zamanix.com" && pw == "zamanix_admin") = true
    · simp [loginUser, hs, adminLoginResponse]
    · simp only at hfind hpw
      simp [loginUser, hs, hfind, hpw, truthy]

/-- Witness for C8: Alice's login with passphrase `""` equals her login with
no passphrase and succeeds without passphrase verification. -/
theorem loginUser_empty_passphrase_like_omitted_witness :
    loginUser (fun i => i) [alice] ⟨"alice@x.com", "pw", some ""⟩
        = loginUser (fun i => i) [alice] ⟨"alice@x.com", "pw", none⟩ ∧
    (loginUser (fun i => i) [alice]
        ⟨"alice@x.com", "pw", some ""⟩).1.status = "success" ∧
    ∀ p, Effect.checkPassphrase p ∉
      (loginUser (fun i => i) [alice] ⟨"alice@x.com", "pw", some ""⟩).2 := by
  have h := loginUser_empty_passphrase_like_omitted (fun i => i) [alice]
    ⟨"alice@x.com", "pw", some ""⟩ alice rfl
  exact ⟨h.1, (h.2 rfl rfl).1, (h.2 rfl rfl).2⟩

/-! ## Claims about the database bootstrap -/

/-- Unfolding of `connectDBFrom` with retries remaining. -/
theorem connectDBFrom_succ (oracle : Nat → Bool) (k r : Nat) (d : ℚ) :
    connectDBFrom oracle k (r + 1) d =
      if oracle k then (true, [])
      else ((connectDBFrom oracle (k + 1) r (d * (3 / 2))).1,
            d :: (connectDBFrom oracle (k + 1) r (d * (3 / 2))).2) := by
  rw [connectDBFrom]

/-- Unfolding of `connectDBFrom` with no retries remaining. -/
theorem connectDBFrom_zero (oracle : Nat → Bool) (k : Nat) (d : ℚ) :
    connectDBFrom oracle k 0 d =
      if oracle k then (true, []) else (false, []) := by
  rw [connectDBFrom]

/-- At most `r` delays are awaited when `r` retries remain. -/
theorem connectDBFrom_len (oracle : Nat → Bool) :
    ∀ (r k : Nat) (d : ℚ), (connectDBFrom oracle k r d).2.length ≤ r := by
  intro r
  induction r with
  | zero =>
    intro k d
    rw [connectDBFrom_zero]
    split <;> simp
  | succ r ih =>
    intro k d
    rw [connectDBFrom_succ]
    split
    · simp
    · simpa using ih (k + 1) (d * (3 / 2))

/-- The delays awaited form a geometric progression of ratio `3/2` starting
at the initial delay. -/
theorem connectDBFrom_geom (oracle : Nat → Bool) :
    ∀ (r k : Nat) (d : ℚ) (i : Nat),
      i < (connectDBFrom oracle k r d).2.length →
      (connectDBFrom oracle k r d).2.getD i 0 = d * (3 / 2) ^ i := by
  intro r
  induction r with
  | zero =>
    intro k d i h
    rw [connectDBFrom_zero] at h
    revert h
    split <;> simp
  | succ r ih =>
    intro k d i h
    rw [connectDBFrom_succ] at h ⊢
    by_cases ho : oracle k = true
    · rw [if_pos ho] at h
      simp at h
    · rw [if_neg ho] at h ⊢
      cases i with
      | zero => simp
      | succ i =>
        have h' : i <
            (connectDBFrom oracle (k + 1) r (d * (3 / 2))).2.length := by
          have hh : i + 1 <
              (connectDBFrom oracle (k + 1) r (d * (3 / 2))).2.length + 1 := by
            simpa using h
          exact Nat.lt_of_succ_lt_succ hh
        have hrec := ih (k + 1) (d * (3 / 2)) i h'
        show (d :: (connectDBFrom oracle (k + 1) r
          (d * (3 / 2))).2).getD (i + 1) 0 = _
        rw [List.getD_cons_succ, hrec]
        ring

/-- The delay list when every connection attempt fails: five waits, each 1.5
times the previous one, starting at 5000 ms. -/
theorem connectDB_allfail :
    connectDB (fun _ => false) =
      (false, [5000, 7500, 11250, 16875, 50625 / 2]) := by
  show connectDBFrom (fun _ => false) 0 5 5000 = _
  rw [connectDBFrom_succ, connectDBFrom_succ, connectDBFrom_succ,
    connectDBFrom_succ, connectDBFrom_succ, connectDBFrom_zero]
  norm_num

/-- C10: the database bootstrap retries a failed connection at most 5 times;
the delays form the exponential backoff `5000 * (3/2)^i` (each wait 1.5 times
the previous, starting at 5000 ms); if every attempt fails, `connectDB`
returns failure after exactly the five waits 5000, 7500, 11250, 16875 and
25312.5 ms; and `initializeApp` mounts the API routes and serves exactly when
the connection succeeded, exiting the process with code 1 otherwise. -/
theorem connectDB_bounded_backoff (oracle : Nat → Bool) :
    (connectDB oracle).2.length ≤ 5 ∧
    (∀ i : Nat, i < (connectDB oracle).2.length →
      (connectDB oracle).2.getD i 0 = 5000 * (3 / 2) ^ i) ∧
    connectDB (fun _ => false) =
      (false, [5000, 7500, 11250, 16875, 50625 / 2]) ∧
    ((connectDB oracle).1 = true →
      initApp oracle = .serving ["/api/blogs", "/api/users"]) ∧
    ((connectDB oracle).1 = false → initApp oracle = .exited 1) := by
  refine ⟨connectDBFrom_len oracle 5 0 5000,
    fun i h => connectDBFrom_geom oracle 5 0 5000 i h, connectDB_allfail,
    ?_, ?_⟩
  · intro h
    simp [initApp, h]
  · intro h
    simp [initApp, h]

/-- Witness for C10: at the everywhere-failing oracle, five delays are
awaited, the second is 7500 ms, and the process exits with code 1. -/
theorem connectDB_bounded_backoff_witness :
    (connectDB (fun _ => false)).2.length ≤ 5 ∧
    connectDB (fun _ => false) =
      (false, [5000, 7500, 11250, 16875, 50625 / 2]) ∧
    initApp (fun _ => false) = .exited 1 := by
  have h := connectDB_bounded_backoff (fun _ => false)
  exact ⟨h.1, h.2.2.1, h.2.2.2.2 (by decide)⟩

/-! ## Claims about the client auth flow -/

/-- One-step preservation of the invariant "while the passphrase popup is
closed, the passphrase field is empty": the passphrase input is rendered
only inside the popup, toggling and popup dismissal clear the field, and
the submit handlers never write it. -/
theorem clientStep_passphrase_inv {s : ClientState} {e : Event}
    {s' : ClientState} {cs : List ApiCall}
    (h : clientStep s e = some (s', cs))
    (hinv : s.showPassphrasePopup = false → s.formData.passphrase = "")
    (hp : s'.showPassphrasePopup = false) : s'.formData.passphrase = "" := by
  cases e with
  | input f v =>
    simp only [clientStep] at h
    split at h
    case isTrue hrend =>
      simp only [Option.some.injEq, Prod.mk.injEq] at h
      obtain ⟨rfl, rfl⟩ := h
      cases f with
      | passphrase =>
        have hrend' : s.showPassphrasePopup = true := hrend
        have hp' : s.showPassphrasePopup = false := hp
        rw [hp'] at hrend'
        cases hrend'
      | name => exact hinv hp
      | email => exact hinv hp
      | password => exact hinv hp
      | phone => exact hinv hp
    case isFalse => exact Option.noConfusion h
  | toggle =>
    simp only [clientStep] at h
    split at h
    case isTrue => exact Option.noConfusion h
    case isFalse =>
      simp only [Option.some.injEq, Prod.mk.injEq] at h
      obtain ⟨rfl, rfl⟩ := h
      rfl
  | dismissPopup =>
    simp only [clientStep] at h
    split at h
    case isTrue =>
      simp only [Option.some.injEq, Prod.mk.injEq] at h
      obtain ⟨rfl, rfl⟩ := h
      rfl
    case isFalse => exact Option.noConfusion h
  | submit apiOk =>
    simp only [clientStep] at h
    split at h
    case isTrue => exact Option.noConfusion h
    case isFalse hpop =>
      rw [Bool.not_eq_true] at hpop
      split at h
      · split at h
        · simp only [Option.some.injEq, Prod.mk.injEq] at h
          obtain ⟨rfl, rfl⟩ := h
          exact hinv hpop
        · split at h <;>
          · simp only [Option.some.injEq, Prod.mk.injEq] at h
            obtain ⟨rfl, rfl⟩ := h
            exact hinv hpop
      · split at h
        · simp only [Option.some.injEq, Prod.mk.injEq] at h
          obtain ⟨rfl, rfl⟩ := h
          exact hinv hpop
        · split at h
          · split at h <;>
            · simp only [Option.some.injEq, Prod.mk.injEq] at h
              obtain ⟨rfl, rfl⟩ := h
              exact hinv hpop
          · simp only [Option.some.injEq, Prod.mk.injEq] at h
            obtain ⟨rfl, rfl⟩ := h
            simp at hp
  | passphraseSubmit apiOk =>
    simp only [clientStep] at h
    split at h
    case isTrue hpop =>
      split at h
      · simp only [Option.some.injEq, Prod.mk.injEq] at h
        obtain ⟨rfl, rfl⟩ := h
        rw [hp] at hpop
        cases hpop
      · split at h <;>
        · simp only [Option.some.injEq, Prod.mk.injEq] at h
          obtain ⟨rfl, rfl⟩ := h
          have hp2 : s.showPassphrasePopup = false := hp
          rw [hp2] at hpop
          cases hpop
    case isFalse => exact Option.noConfusion h

/-- In every reachable state with the passphrase popup closed, the passphrase
form field is empty. -/
theorem reachable_passphrase_empty {s : ClientState} (hr : Reachable s) :
    s.showPassphrasePopup = false → s.formData.passphrase = "" := by
  induction hr with
  | init => intro _; rfl
  | next _ hstep ih => exact clientStep_passphrase_inv hstep ih

/-- C7: in any reachable state, a successful signup submission stores the
form's passphrase field — which is empty, since the signup form renders no
passphrase input — as the displayed `generatedPassphrase`; in particular the
displayed string differs from any non-empty passphrase the server's
registration response returned. -/
theorem signup_displays_form_passphrase (s s' : ClientState)
    (cs : List ApiCall) (hr : Reachable s)
    (hsign : s.isSignup = true)
    (hname : s.formData.name ≠ "") (hemail : s.formData.email ≠ "")
    (hpwd : s.formData.password ≠ "") (hphone : s.formData.phone ≠ "")
    (hstep : clientStep s (.submit true) = some (s', cs)) :
    s'.generatedPassphrase = s.formData.passphrase ∧
    s'.generatedPassphrase = "" ∧
    ∀ serverPassphrase : String, serverPassphrase ≠ "" →
      s'.generatedPassphrase ≠ serverPassphrase := by
  have hpop : s.showPassphrasePopup = false := by
    by_contra hc
    rw [Bool.not_eq_false] at hc
    simp [clientStep, hc] at hstep
  have hpass := reachable_passphrase_empty hr hpop
  simp [clientStep, hpop, hsign, hname, hemail, hpwd, hphone] at hstep
  obtain ⟨rfl, rfl⟩ := hstep
  refine ⟨rfl, hpass, ?_⟩
  intro sp hsp hEq
  exact hsp (by rw [← hEq]; exact hpass)

/-- Witness for C7: a concrete reachable signup flow — toggle to signup, fill
the four rendered fields, submit successfully — displays the empty string,
not the server's passphrase. -/
theorem signup_displays_form_passphrase_witness :
    sSignup5.generatedPassphrase = sSignup4.formData.passphrase ∧
    sSignup5.generatedPassphrase = "" ∧
    sSignup5.generatedPassphrase ≠ "w1 w2" := by
  have h0 : Reachable initClient := .init
  have h1 : Reachable sSignup0 := .next h0
    (show clientStep initClient .toggle = some (sSignup0, []) by decide)
  have h2 : Reachable sSignup1 := .next h1
    (show clientStep sSignup0 (.input .name "Al") = some (sSignup1, [])
      by decide)
  have h3 : Reachable sSignup2 := .next h2
    (show clientStep sSignup1 (.input .phone "1") = some (sSignup2, [])
      by decide)
  have h4 : Reachable sSignup3 := .next h3
    (show clientStep sSignup2 (.input .email "al@x.com") = some (sSignup3, [])
      by decide)
  have h5 : Reachable sSignup4 := .next h4
    (show clientStep sSignup3 (.input .password "pw") = some (sSignup4, [])
      by decide)
  have hmain := signup_displays_form_passphrase sSignup4 sSignup5
    [ApiCall.signup "Al" "al@x.com" "pw" "1"] h5 rfl (by decide) (by decide)
    (by decide) (by decide) (by decide)
  exact ⟨hmain.1, hmain.2.1, hmain.2.2 "w1 w2" (by decide)⟩

/-- C9: submitting login credentials with the admin email makes the login
call immediately and lands in success or error with the popup still closed,
never in the awaiting-passphrase state; with any other email the submission
makes no API call, opens the passphrase popup with the credentials stashed,
and the login call is only made by the subsequent popup submission; and from
a closed-popup state, the popup can only open when the submitted email is
not the admin one. -/
theorem submit_admin_direct_others_popup (s : ClientState) (ok ok2 : Bool)
    (hpop : s.showPassphrasePopup = false)
    (hsign : s.isSignup = false)
    (he : s.formData.email ≠ "")
    (hpw : s.formData.password ≠ "") :
    (s.formData.email = "admin@zamanix.com" →
      ∃ s1, clientStep s (.submit ok) =
          some (s1, [ApiCall.login s.formData.email s.formData.password none])
        ∧ s1.showPassphrasePopup = false
        ∧ (ok = true → s1.success = "Login successful!")
        ∧ (ok = false → s1.error = "Invalid credentials")) ∧
    (s.formData.email ≠ "admin@zamanix.com" →
      ∃ s1, clientStep s (.submit ok) = some (s1, [])
        ∧ s1.showPassphrasePopup = true
        ∧ s1.tempLoginData = some (s.formData.email, s.formData.password)
        ∧ ∃ s2, clientStep s1 (.passphraseSubmit ok2) =
            some (s2, [ApiCall.login s.formData.email s.formData.password
              (some s1.formData.passphrase)])) ∧
    (∀ (e : Event) (s1 : ClientState) (cs : List ApiCall),
      clientStep s e = some (s1, cs) → s1.showPassphrasePopup = true →
      s.formData.email ≠ "admin@zamanix.com") := by
  have hpop' : ¬s.showPassphrasePopup = true := by
    rw [hpop]
    exact Bool.false_ne_true
  have hval : ¬(s.formData.email = "" ∨ s.formData.password = "") := by
    rintro (h | h)
    exacts [he h, hpw h]
  refine ⟨?_, ?_, ?_⟩
  · intro hadmin
    cases ok with
    | true =>
      have hstep : clientStep s (.submit true) =
          some ({ s with error := "", success := "Login successful!" },
            [ApiCall.login s.formData.email s.formData.password none]) := by
        simp only [clientStep]
        rw [if_neg hpop', if_neg (by rw [hsign]; exact Bool.false_ne_true),
          if_neg hval, if_pos hadmin]
        rfl
      refine ⟨_, hstep, hpop, fun _ => rfl, ?_⟩
      intro hcon
      cases hcon
    | false =>
      have hstep : clientStep s (.submit false) =
          some ({ s with error := "Invalid credentials", success := "" },
            [ApiCall.login s.formData.email s.formData.password none]) := by
        simp only [clientStep]
        rw [if_neg hpop', if_neg (by rw [hsign]; exact Bool.false_ne_true),
          if_neg hval, if_pos hadmin]
        rfl
      refine ⟨_, hstep, hpop, ?_, fun _ => rfl⟩
      intro hcon
      cases hcon
  · intro hadmin
    have hstep : clientStep s (.submit ok) =
        some (popupState s, []) := by
      simp only [clientStep]
      rw [if_neg hpop', if_neg (by rw [hsign]; exact Bool.false_ne_true),
        if_neg hval, if_neg hadmin]
      rfl
    refine ⟨_, hstep, rfl, rfl, ?_⟩
    cases ok2 with
    | true => exact ⟨_, rfl⟩
    | false => exact ⟨_, rfl⟩
  · intro e s1 cs hstep hpop1
    cases e with
    | input f v =>
      simp only [clientStep] at hstep
      split at hstep
      · simp only [Option.some.injEq, Prod.mk.injEq] at hstep
        obtain ⟨rfl, rfl⟩ := hstep
        have hc : s.showPassphrasePopup = true := hpop1
        rw [hpop] at hc
        cases hc
      · exact Option.noConfusion hstep
    | toggle =>
      simp only [clientStep] at hstep
      split at hstep
      · exact Option.noConfusion hstep
      · simp only [Option.some.injEq, Prod.mk.injEq] at hstep
        obtain ⟨rfl, rfl⟩ := hstep
        have hc : s.showPassphrasePopup = true := hpop1
        rw [hpop] at hc
        cases hc
    | dismissPopup =>
      simp only [clientStep] at hstep
      split at hstep
      case isTrue hc =>
        rw [hpop] at hc
        cases hc
      case isFalse => exact Option.noConfusion hstep
    | submit ok3 =>
      intro hadmin
      cases ok3 with
      | true =>
        rw [(show clientStep s (.submit true) =
            some ({ s with error := "", success := "Login successful!" },
              [ApiCall.login s.formData.email s.formData.password none]) by
          simp only [clientStep]
          rw [if_neg hpop', if_neg (by rw [hsign]; exact Bool.false_ne_true),
            if_neg hval, if_pos hadmin]
          rfl)] at hstep
        simp only [Option.some.injEq, Prod.mk.injEq] at hstep
        obtain ⟨rfl, rfl⟩ := hstep
        have hc : s.showPassphrasePopup = true := hpop1
        rw [hpop] at hc
        cases hc
      | false =>
        rw [(show clientStep s (.submit false) =
            some ({ s with error := "Invalid credentials", success := "" },
              [ApiCall.login s.formData.email s.formData.password none]) by
          simp only [clientStep]
          rw [if_neg hpop', if_neg (by rw [hsign]; exact Bool.false_ne_true),
            if_neg hval, if_pos hadmin]
          rfl)] at hstep
        simp only [Option.some.injEq, Prod.mk.injEq] at hstep
        obtain ⟨rfl, rfl⟩ := hstep
        have hc : s.showPassphrasePopup = true := hpop1
        rw [hpop] at hc
        cases hc
    | passphraseSubmit ok3 =>
      simp only [clientStep] at hstep
      split at hstep
      case isTrue hc =>
        rw [hpop] at hc
        cases hc
      case isFalse => exact Option.noConfusion hstep

/-- Witness for C9: submitting the non-admin login form opens the popup
without calling the API. -/
theorem submit_admin_direct_others_popup_witness :
    (clientStep sLogin (.submit true)).isSome = true ∧
    sLogin.formData.email ≠ "admin@zamanix.com" := by
  have h := submit_admin_direct_others_popup sLogin true true rfl rfl
    (by decide) (by decide)
  obtain ⟨s1, hs1, -, -, -⟩ := h.2.1 (by decide)
  rw [hs1]
  exact ⟨rfl, by decide⟩

end Zamanix
